import Mathlib

/-!
Shallow embedding of the NeMo repository fragments under verification:
  examples/tts/G2P/data/prepare_wiki_data.py
  nemo_text_processing/g2p/models/g2p_ctc.py
  nemo/collections/tts/models/fastpitch_adversarial.py
Python strings are modelled as lists of characters; Python dicts that hold
JSON manifest lines are modelled as association lists; exceptions are
modelled with an explicit error type threaded through each step.
-/

/-- A Python string, modelled as a list of characters. -/
abbrev PyStr := List Char

/-- Conversion from a Lean string literal to the model of a Python string. -/
def pystr (s : String) : PyStr := s.data

/-- Python exceptions that the embedded code can raise. -/
inductive PyErr
  | nameError
  | valueError
  | assertionError
  | keyError
  | indexError
  deriving DecidableEq, Repr

/-- Python s.lower(), character by character. -/
def pyLower (s : PyStr) : PyStr := s.map Char.toLower

/-- Python slicing s[a:b] for non-negative indices (clamped, empty when b le a). -/
def pySlice (s : PyStr) (a b : Nat) : PyStr := (s.drop a).take (b - a)

/-- True when the first list is a prefix of the second. -/
def startsWithList : PyStr → PyStr → Bool
  | [], _ => true
  | _ :: _, [] => false
  | a :: as, b :: bs => a == b && startsWithList as bs

/-- Fuelled worker for Python str.count (non-overlapping, left to right). -/
def countOccsAux : Nat → PyStr → PyStr → Nat
  | 0, _, _ => 0
  | fuel + 1, s, sub =>
    match s with
    | [] => 0
    | c :: rest =>
      if startsWithList sub (c :: rest) then
        1 + countOccsAux fuel ((c :: rest).drop sub.length) sub
      else
        countOccsAux fuel rest sub

/-- Python s.count(sub): number of non-overlapping occurrences; an empty
pattern matches at every boundary, len(s) + 1 times. -/
def countOccs (s sub : PyStr) : Nat :=
  if sub = [] then s.length + 1 else countOccsAux s.length s sub

/-- Python s.index(sub) as an option: index of the first occurrence. -/
def indexOfSub : PyStr → PyStr → Option Nat
  | [], sub => if sub = [] then some 0 else none
  | c :: rest, sub =>
    if startsWithList sub (c :: rest) then some 0
    else (indexOfSub rest sub).map (fun n => n + 1)

/-- Fuelled worker for Python str.replace with a non-empty pattern. -/
def pyReplaceAux : Nat → PyStr → PyStr → PyStr → PyStr
  | 0, s, _, _ => s
  | fuel + 1, s, old, new =>
    match s with
    | [] => []
    | c :: rest =>
      if startsWithList old (c :: rest) then
        new ++ pyReplaceAux fuel ((c :: rest).drop old.length) old new
      else
        c :: pyReplaceAux fuel rest old new

/-- Python s.replace(old, new), replacing every non-overlapping occurrence
left to right; an empty pattern inserts new at every boundary. -/
def pyReplace (s old new : PyStr) : PyStr :=
  if old = [] then new ++ (s.map (fun c => c :: new)).flatten
  else pyReplaceAux s.length s old new

/-- prepare_wiki_data.pre_process: replace the accented e. -/
def pre_process (text : PyStr) : PyStr :=
  pyReplace text (pystr "é") (pystr "e")

/-- True for characters in the CJK Unified Ideographs range 4E00 to 9FFF. -/
def isCJK (c : Char) : Bool :=
  decide (0x4e00 ≤ c.toNat) && decide (c.toNat ≤ 0x9fff)

/-- Fuelled worker for the CJK run search. -/
def cjkRunsAux : Nat → PyStr → List PyStr
  | 0, _ => []
  | _, [] => []
  | fuel + 1, c :: rest =>
    if isCJK c then
      (c :: List.takeWhile isCJK rest) ::
        cjkRunsAux fuel (List.dropWhile isCJK rest)
    else
      cjkRunsAux fuel rest

/-- Maximal runs of CJK characters, as found by the regex in remove_cjk. -/
def cjkRuns (s : PyStr) : List PyStr := cjkRunsAux s.length s

/-- prepare_wiki_data.remove_cjk: delete every CJK run found by the regex. -/
def remove_cjk (text : PyStr) : PyStr :=
  (cjkRuns text).foldl (fun t r => pyReplace t r (pystr "")) text

/-- prepare_wiki_data.post_process_normalization: the literal chain of
string replacements applied to normalizer output, in source order. -/
def post_process_normalization (text : PyStr) : PyStr :=
  let t := pyReplace text (pystr "slash ") (pystr "/ ")
  let t := pyReplace t (pystr "–") (pystr "-")
  let t := pyReplace t (pystr " slash[") (pystr " slash [")
  let t := pyReplace t (pystr "—") (pystr "-")
  let t := pyReplace t (pystr "C₃") (pystr "C three")
  let t := pyReplace t (pystr "I²C") (pystr "I two C")
  let t := pyReplace t (pystr "α-methyl") (pystr "alpha methyl")
  let t := pyReplace t (pystr " /ʔ/") (pystr "")
  let t := pyReplace t (pystr "B₁₀₅") (pystr "B one hundred and five")
  let t := pyReplace t (pystr "B₄₈") (pystr "B forty eight")
  let t := pyReplace t (pystr "B₂₈-B-B₂₈ (B₅₇)") (pystr "B twenty eight B B twenty eight (B fifty seven)")
  let t := pyReplace t (pystr "NF-κB") (pystr "Nuclear factor kappa B")
  let t := pyReplace t (pystr "PLCγ") (pystr "Phosphoinositide phospholipase gamma")
  let t := pyReplace t (pystr "#½") (pystr "")
  let t := pyReplace t (pystr "pᵢ") (pystr "p i")
  let t := pyReplace t (pystr "RSO₂OH") (pystr "R S O two O H")
  let t := pyReplace t (pystr " 2ᵃˣⁱˢ") (pystr "")
  let t := pyReplace t (pystr ": Гугутка") (pystr "")
  let t := pyReplace t (pystr " ܕ, d-, da-.") (pystr "")
  let t := pyReplace t (pystr " A⁰") (pystr "")
  let t := pyReplace t (pystr "17β") (pystr "seventeen beta")
  let t := pyReplace t (pystr " (英米本位の平和主義を排す)") (pystr "")
  let t := pyReplace t (pystr " (Russian: рекрутская повинность)") (pystr "")
  let t := pyReplace t (pystr "πλατυς ") (pystr "")
  let t := pyReplace t (pystr "(じいちゃん Jiichan)") (pystr "")
  let t := pyReplace t (pystr "WCl₆") (pystr "W C L six")
  let t := pyReplace t (pystr " Ca(C₁₀H₁₂O₄N₅PO₄)") (pystr " shown in the book")
  let t := pyReplace t (pystr " (bda)Fe(CO)₃") (pystr "")
  let t := pyReplace t (pystr "Tris(pentafluorophenyl)borane") (pystr "Tris (pentafluorophenyl) borane")
  let t := pyReplace t (pystr " (C₆F₅)₃B") (pystr "")
  let t := pyReplace t (pystr " with the formula Na₂HPO₄") (pystr "")
  let t := pyReplace t (pystr "ǀXam, ǂUngkue") (pystr "Xam, Ungkue")
  let t := pyReplace t (pystr "Ytterbium(III) chloride (YbCl₃)") (pystr "Ytterbium chloride")
  let t := pyReplace t (pystr " with the formula Cl₂O₇") (pystr "")
  let t := pyReplace t (pystr " with formula (CH₃)₂C₆H₃NH₂") (pystr "")
  let t := pyReplace t (pystr "C₆F₅XeF") (pystr "this one")
  let t := pyReplace t (pystr "C₄H₄S") (pystr "this one")
  let t := pyReplace t (pystr "PbCrO₄") (pystr "this one")
  let t := pyReplace t (pystr "PbS₂") (pystr "this one")
  let t := pyReplace t (pystr "Cd(CH₃)₂") (pystr "shown in the book")
  let t := pyReplace t (pystr "β") (pystr "beta")
  let t := pyReplace t (pystr "MΩ ") (pystr "")
  let t := pyReplace t (pystr "K₂(C₂H₄O(COO)₂)") (pystr "mentioned above")
  let t := pyReplace t (pystr " (NI₃)") (pystr "")
  let t := pyReplace t (pystr " with formula KC₅H₈NO₄") (pystr "")
  let t := pyReplace t (pystr " Gin\x27iro Doresu (銀色ドレス Silver Dress)") (pystr " Silver Dress")
  let t := pyReplace t (pystr "ρ-") (pystr "p ")
  let t := pyReplace t (pystr "σ2B (the \"Breeding expectations\" variance) and σ2δ (the \"Breeding deviations\" variance)") (pystr "the \"Breeding expectations\" variance and the \"Breeding deviations\" variance")
  let t := pyReplace t (pystr " CaCl₂") (pystr "")
  let t := pyReplace t (pystr "copper(II) acetate to copper(I) oxide (Cu₂O)") (pystr "copper acetate to copper oxide")
  let t := pyReplace t (pystr "CuSO₄") (pystr "C u S O four")
  let t := pyReplace t (pystr "The function eᵃˣ") (pystr "This function")
  let t := pyReplace t (pystr "R⁴") (pystr "R to the forth power")
  let t := pyReplace t (pystr "₀") (pystr " zero ")
  let t := pyReplace t (pystr "₁") (pystr " one ")
  let t := pyReplace t (pystr "₂") (pystr " two ")
  let t := pyReplace t (pystr "₃") (pystr " three ")
  let t := pyReplace t (pystr "₄") (pystr " four")
  let t := pyReplace t (pystr "₅") (pystr " five ")
  let t := pyReplace t (pystr "₆") (pystr " six ")
  let t := pyReplace t (pystr "₇") (pystr " seven ")
  let t := pyReplace t (pystr "δ-") (pystr "delta")
  let t := pyReplace t (pystr "πr²") (pystr "pi r squared")
  let t := pyReplace t (pystr "km³") (pystr "cubic kilometers")
  let t := pyReplace t (pystr "CU mi") (pystr "cubic miles")
  let t := pyReplace t (pystr "³") (pystr " cubed")
  let t := pyReplace t (pystr "ʻo") (pystr "")
  let t := pyReplace t (pystr " (Hangul: 화경숙빈최씨; Hanja: 和瓊淑嬪崔氏)") (pystr "")
  let t := pyReplace t (pystr "(Bulgarian: Смилцена) ") (pystr "")
  let t := pyReplace t (pystr "(Мисс CCCP) ") (pystr "")
  let t := pyReplace t (pystr "σ") (pystr " sigma ")
  let t := pyReplace t (pystr "α") (pystr " alpha ")
  let t := pyReplace t (pystr "γ") (pystr " gamma ")
  let t := pyReplace t (pystr "κ") (pystr " kappa ")
  let t := pyReplace t (pystr "μeff") (pystr "effective magnetic moment")
  let t := pyReplace t (pystr "Београдски Синдикат") (pystr "")
  let t := pyReplace t (pystr "(モンキーマジック) ") (pystr "")
  let t := pyReplace t (pystr "P⁵") (pystr "P to the fifth power")
  let t := pyReplace t (pystr "ΛᵏV") (pystr "lambda V")
  let t := pyReplace t (pystr "I-695") (pystr "I-six hundred ninety five")
  let t := pyReplace t (pystr "501") (pystr "five hundred and one")
  let t := pyReplace t (pystr "2009") (pystr "twenty oh nine")
  let t := pyReplace t (pystr "ᵢ") (pystr " i ")
  let t := pyReplace t (pystr "µg/mL") (pystr "microgram per milliliter")
  let t := pyReplace t (pystr "ρε") (pystr "re")
  let t := pyReplace t (pystr "ς") (pystr "s")
  let t := pyReplace t (pystr "for g¹(q;τ)") (pystr "")
  let t := pyReplace t (pystr "G(Γ)") (pystr "G")
  let t := pyReplace t (pystr "π") (pystr "pi")
  let t := pyReplace t (pystr ":جامعة المغتربين") (pystr "")
  let t := pyReplace t (pystr "TᵏM") (pystr "T M")
  pyReplace t (pystr "  ") (pystr " ")

/-- The placeholder token used for the homograph position. -/
def replace_token : PyStr := pystr "[]"

/-- One output entry of normalize_wikihomograph_data (a JSON manifest line). -/
structure Entry where
  text_graphemes : PyStr
  norm_text_graphemes : PyStr
  start_end : Nat × Nat
  homograph_span : PyStr
  word_id : PyStr
  deriving DecidableEq, Repr, Inhabited

/-- Observable console events of normalize_wikihomograph_data: the TN-error
print in the except clause, and the interactive debugger break. -/
inductive Ev
  | tnError (text : PyStr)
  | pdbBreak
  deriving DecidableEq, Repr

/-- Mutable state of a run of normalize_wikihomograph_data: the dropped-line
counter, the function-local norm_text variable (none while still unbound),
the entries written to the output file, and the emitted events. -/
structure NormState where
  num_removed : Nat
  lastNorm : Option PyStr
  out : List Entry
  events : List Ev
  deriving DecidableEq, Repr

/-- External inputs of normalize_wikihomograph_data per TSV file: the target
homograph (file base name without the .tsv extension), the imported
correct_wikihomograph_data helper, and Normalizer.normalize, where none
models the normalizer raising an exception. -/
structure NormEnv where
  homograph : PyStr
  correct_wikihomograph_data : PyStr → Nat → Nat → PyStr × Nat × Nat
  normalize : PyStr → Option PyStr

/-- One input TSV row: sentence, homograph start and end indices, word id. -/
structure Row where
  sent : PyStr
  start : Nat
  end_ : Nat
  word_id : PyStr
  deriving DecidableEq, Repr

/-- Lines 175 to 183 of prepare_wiki_data.py: post-process norm_text, build
the entry and write it, updating the function-local norm_text. -/
def writeEntry (st : NormState) (v span : PyStr) (startN endN : Nat)
    (wid : PyStr) : NormState :=
  { st with
    lastNorm := some (post_process_normalization v)
    out := st.out ++
      [{ text_graphemes := post_process_normalization v
         norm_text_graphemes :=
           pyReplace (post_process_normalization v) replace_token span
         start_end := (startN, endN)
         homograph_span := span
         word_id := wid }] }

/-- Lines 151 to 156 of prepare_wiki_data.py: the homograph span with the
start and end index correction. When the sliced span does not match and the
lowered sentence contains the homograph exactly once, the span is relocated
to the first occurrence and lower-cased, with the assert check; str.index
raising ValueError is kept for totality. The result is the exception that
escapes, or the corrected start, end and span. -/
def relocateSpan (env : NormEnv) (sent : PyStr) (a b : Nat) :
    Sum PyErr (Nat × Nat × PyStr) :=
  if pyLower (pySlice sent a b) ≠ env.homograph ∧
      countOccs (pyLower sent) env.homograph = 1 then
    match indexOfSub (pyLower sent) env.homograph with
    | none => Sum.inl PyErr.valueError
    | some s1 =>
      let sp1 := pyLower (pySlice sent s1 (s1 + env.homograph.length))
      if env.homograph = pyLower sp1 then
        Sum.inr (s1, s1 + env.homograph.length, sp1)
      else Sum.inl PyErr.assertionError
  else Sum.inr (a, b, pySlice sent a b)

/-- Lines 160 to 183 of prepare_wiki_data.py, after the span is settled:
either the pdb branch that drops the line, or the normalization attempt
whose except clause lacks a continue, so that a failure still falls through
to the entry-writing block with the stale norm_text (NameError when it is
still unbound). -/
def afterSpan (env : NormEnv) (st : NormState) (r : Row) (sent : PyStr)
    (startN endN : Nat) (homograph_span : PyStr) : NormState × Option PyErr :=
  if pyLower homograph_span ≠ env.homograph then
    ({ st with
       events := st.events ++ [Ev.pdbBreak]
       num_removed := st.num_removed + 1 }, none)
  else
    match env.normalize (sent.take startN ++ replace_token ++ sent.drop endN) with
    | some raw => (writeEntry st raw homograph_span startN endN r.word_id, none)
    | none =>
      match st.lastNorm with
      | none =>
        ({ st with
           events := st.events ++
             [Ev.tnError (sent.take startN ++ replace_token ++ sent.drop endN)]
           num_removed := st.num_removed + 1 }, some PyErr.nameError)
      | some prev =>
        (writeEntry
          { st with
            events := st.events ++
              [Ev.tnError (sent.take startN ++ replace_token ++ sent.drop endN)]
            num_removed := st.num_removed + 1 }
          prev homograph_span startN endN r.word_id, none)

/-- The body of the per-row loop of normalize_wikihomograph_data (lines 145
to 183 of prepare_wiki_data.py). Returns the new state and, when an
exception escapes the row (assert failure, str.index miss, or the NameError
caused by the missing continue in the except clause), that exception. -/
def rowStep (env : NormEnv) (st : NormState) (r : Row) :
    NormState × Option PyErr :=
  match relocateSpan env
      (pre_process (env.correct_wikihomograph_data r.sent r.start r.end_).1)
      (env.correct_wikihomograph_data r.sent r.start r.end_).2.1
      (env.correct_wikihomograph_data r.sent r.start r.end_).2.2 with
  | Sum.inl e => (st, some e)
  | Sum.inr x =>
    afterSpan env st r
      (pre_process (env.correct_wikihomograph_data r.sent r.start r.end_).1)
      x.1 x.2.1 x.2.2

/-- The per-file loop of normalize_wikihomograph_data over its rows, stopping
when an exception escapes a row. -/
def runRows (env : NormEnv) : NormState → List Row → NormState × Option PyErr
  | st, [] => (st, none)
  | st, r :: rs =>
    let p := rowStep env st r
    match p.2 with
    | none => runRows env p.1 rs
    | some e => (p.1, some e)

/-- Initial state: zero removed lines, norm_text unbound, no output. -/
def initNormState : NormState :=
  { num_removed := 0, lastNorm := none, out := [], events := [] }

/-- normalize_wikihomograph_data on the rows of one TSV file. -/
def normalize_wikihomograph_data (env : NormEnv) (rows : List Row) :
    NormState × Option PyErr :=
  runRows env initNormState rows

/-- External inputs of _prepare_wikihomograph_data: the word-id to IPA map,
the IPA tokenizer (returning the phoneme and grapheme strings), the
validity check, and the imported post_process helper. -/
structure PrepEnv where
  wordid_to_nemo_cmu : PyStr → PyStr
  ipa_tok : PyStr → PyStr × PyStr
  is_valid : PyStr → Bool
  post_process : PyStr → PyStr

/-- One manifest line written by _prepare_wikihomograph_data: the input JSON
line with text_graphemes replaced and text, duration and audio_filepath
added. -/
structure OutLine where
  text_graphemes : PyStr
  norm_text_graphemes : PyStr
  start_end : Nat × Nat
  homograph_span : PyStr
  word_id : PyStr
  text : PyStr
  duration : ℚ
  audio_filepath : PyStr
  deriving DecidableEq, Repr, Inhabited

/-- Mutable state of a run of _prepare_wikihomograph_data: the drop list, the
function-local variable holding the last bound value of the final grapheme
string (none while still unbound), and the written manifest lines. -/
structure PrepState where
  drop : List PyStr
  lastG : Option PyStr
  out : List OutLine
  deriving DecidableEq, Repr

/-- The body of the per-line loop of _prepare_wikihomograph_data (lines 201
to 221 of prepare_wiki_data.py). When the validity check fails, the code
appends the final grapheme variable of a previous iteration to the drop
list; on the first such line that variable is unbound and a NameError
escapes. -/
def prepStep (env : PrepEnv) (st : PrepState) (line : Entry) :
    PrepState × Option PyErr :=
  if env.is_valid (remove_cjk line.text_graphemes) then
    ({ st with
       lastG := some (env.post_process
         (pyReplace (env.ipa_tok (remove_cjk line.text_graphemes)).2
           replace_token line.homograph_span))
       out := st.out ++
         [{ text_graphemes :=
              env.post_process
                (pyReplace (env.ipa_tok (remove_cjk line.text_graphemes)).2
                  replace_token line.homograph_span)
            norm_text_graphemes := line.norm_text_graphemes
            start_end := line.start_end
            homograph_span := line.homograph_span
            word_id := line.word_id
            text :=
              env.post_process
                (pyReplace (env.ipa_tok (remove_cjk line.text_graphemes)).1
                  replace_token (env.wordid_to_nemo_cmu line.word_id))
            duration := 1 / 1000
            audio_filepath := pystr "n/a" }] }, none)
  else
    match st.lastG with
    | none => (st, some PyErr.nameError)
    | some g => ({ st with drop := st.drop ++ [g] }, none)

/-- The per-line loop of _prepare_wikihomograph_data, stopping when an
exception escapes a line. -/
def runPrep (env : PrepEnv) : PrepState → List Entry → PrepState × Option PyErr
  | st, [] => (st, none)
  | st, l :: ls =>
    let p := prepStep env st l
    match p.2 with
    | none => runPrep env p.1 ls
    | some e => (p.1, some e)

/-- Initial state of _prepare_wikihomograph_data. -/
def initPrepState : PrepState := { drop := [], lastG := none, out := [] }

/-- _prepare_wikihomograph_data over the normalized manifest lines. -/
def _prepare_wikihomograph_data (env : PrepEnv) (lines : List Entry) :
    PrepState × Option PyErr :=
  runPrep env initPrepState lines

/-- The relation between a source manifest line and the line that
_prepare_wikihomograph_data writes for it: graphemes are tokenized after
CJK removal, the placeholder is replaced by the homograph span on the
grapheme side and by the heteronym IPA form on the phoneme side, both are
post-processed, metadata is carried over, duration is 0.001 and
audio_filepath is n/a. -/
def producedFrom (env : PrepEnv) (src : Entry) (l : OutLine) : Prop :=
  l.text_graphemes =
      env.post_process
        (pyReplace (env.ipa_tok (remove_cjk src.text_graphemes)).2
          replace_token src.homograph_span) ∧
  l.text =
      env.post_process
        (pyReplace (env.ipa_tok (remove_cjk src.text_graphemes)).1
          replace_token (env.wordid_to_nemo_cmu src.word_id)) ∧
  l.homograph_span = src.homograph_span ∧
  l.word_id = src.word_id ∧
  l.start_end = src.start_end ∧
  l.norm_text_graphemes = src.norm_text_graphemes ∧
  l.duration = 1 / 1000 ∧
  l.audio_filepath = pystr "n/a"

/-- State of the CTCG2PModel visible to _infer: the training-mode flag. -/
structure ModelState where
  training : Bool
  deriving DecidableEq, Repr

/-- The inference loop body of CTCG2PModel._infer: each element of batches
is the decoded prediction strings of one batch, or none when forward or
decoding raises on that batch. -/
def inferLoop : List (Option (List PyStr)) → Except PyErr (List PyStr)
  | [] => Except.ok []
  | b :: bs =>
    match b with
    | none => Except.error PyErr.valueError
    | some preds =>
      match inferLoop bs with
      | Except.ok rest => Except.ok (preds ++ rest)
      | Except.error e => Except.error e

/-- CTCG2PModel._infer: records the current training flag, switches the model
to evaluation mode, runs the dataloader loop inside a try block, and in the
finally clause restores the recorded flag; returns the collected
predictions or the escaped exception, together with the final model
state. -/
def _infer (st : ModelState) (batches : List (Option (List PyStr))) :
    Except PyErr (List PyStr) × ModelState :=
  let mode := st.training
  let stEval : ModelState := { st with training := false }
  let body := inferLoop batches
  (body, { stEval with training := mode })

/-- A JSON value stored in a manifest line. -/
inductive JVal
  | str : PyStr → JVal
  | num : ℚ → JVal
  deriving DecidableEq, Repr

/-- A JSON manifest line: an association list of key and value pairs in
insertion order, with unique keys, as a Python dict. -/
abbrev JObj := List (PyStr × JVal)

/-- Python dict lookup line[k]. -/
def jGet (o : JObj) (k : PyStr) : Option JVal :=
  (o.find? (fun p => p.1 == k)).map Prod.snd

/-- Python dict assignment line[k] = v: update in place when the key exists,
otherwise append at the end, preserving insertion order. -/
def jSet (o : JObj) (k : PyStr) (v : JVal) : JObj :=
  if (o.find? (fun p => p.1 == k)).isSome then
    o.map (fun p => if p.1 == k then (k, v) else p)
  else
    o ++ [(k, v)]

/-- The pred_text, text, graphemes and PER manifest keys. -/
def predTextKey : PyStr := pystr "pred_text"

/-- The text manifest key. -/
def textKey : PyStr := pystr "text"

/-- The graphemes manifest key. -/
def graphemesKey : PyStr := pystr "graphemes"

/-- The PER manifest key. -/
def perKey : PyStr := pystr "PER"

/-- External inputs of convert_graphemes_to_phonemes: the predictions
returned by _infer (one per dataset item, in order) and the imported
word_error_rate function. -/
structure ConvEnv where
  preds : List PyStr
  word_error_rate : List PyStr → List JVal → ℚ

/-- State of the manifest-writing loop of convert_graphemes_to_phonemes. -/
structure ConvState where
  out : List JObj
  all_targets : List JVal
  deriving DecidableEq, Repr

/-- The body of the per-line loop of convert_graphemes_to_phonemes (lines
389 to 404 of g2p_ctc.py) for one parsed line and its prediction: with a
target_field present in the line, graphemes is set to the old text, text is
overwritten with the target value, PER is computed and stored, and the
target value is collected; then pred_text is set and the line written. -/
def convLine (env : ConvEnv) (tf : Option PyStr) (pred : PyStr)
    (line : JObj) : Except PyErr (JObj × List JVal) :=
  match tf with
  | none => Except.ok (jSet line predTextKey (JVal.str pred), [])
  | some t =>
    match jGet line t with
    | none => Except.ok (jSet line predTextKey (JVal.str pred), [])
    | some _ =>
      match jGet line textKey with
      | none => Except.error PyErr.keyError
      | some tv =>
        let l1 := jSet line graphemesKey tv
        match jGet l1 t with
        | none => Except.error PyErr.keyError
        | some tfv1 =>
          let l2 := jSet l1 textKey tfv1
          match jGet l2 t with
          | none => Except.error PyErr.keyError
          | some tfv2 =>
            let l3 := jSet l2 perKey
                (JVal.num (env.word_error_rate [pred] [tfv2]))
            match jGet l3 t with
            | none => Except.error PyErr.keyError
            | some tfv3 =>
              Except.ok (jSet l3 predTextKey (JVal.str pred), [tfv3])

/-- The indexed loop over manifest lines; all_preds[i] raises IndexError
when the prediction list is shorter than the manifest. -/
def convRun (env : ConvEnv) (tf : Option PyStr) :
    Nat → ConvState → List JObj → ConvState × Option PyErr
  | _, st, [] => (st, none)
  | i, st, l :: ls =>
    match env.preds.get? i with
    | none => (st, some PyErr.indexError)
    | some p =>
      match convLine env tf p l with
      | Except.error e => (st, some e)
      | Except.ok r =>
        convRun env tf (i + 1)
          { out := st.out ++ [r.1], all_targets := st.all_targets ++ r.2 } ls

/-- Initial state of the manifest-writing loop. -/
def initConvState : ConvState := { out := [], all_targets := [] }

/-- CTCG2PModel.convert_graphemes_to_phonemes on the parsed lines of the
input manifest: runs the writing loop and returns all_preds. -/
def convert_graphemes_to_phonemes (env : ConvEnv) (tf : Option PyStr)
    (lines : List JObj) : (ConvState × Option PyErr) × List PyStr :=
  (convRun env tf 0 initConvState lines, env.preds)

/-- FastPitchAdversarialModel.adversarial_loss: pred is the stacked
prediction tensor given by its rows (so pred.length is pred.size(0)), bce
is torch.nn.functional.binary_cross_entropy, and labels is the integer
label selector. For labels equal to 1 the target is an all-ones tensor of
shape (pred.size(0), 1), for 0 an all-zeros tensor of that shape, and any
other value raises ValueError. -/
def adversarial_loss (bce : List (List ℚ) → List (List ℚ) → ℚ)
    (pred : List (List ℚ)) (labels : Int) : Except PyErr ℚ :=
  if labels = 1 then
    Except.ok (bce pred (List.replicate pred.length [(1 : ℚ)]))
  else if labels = 0 then
    Except.ok (bce pred (List.replicate pred.length [(0 : ℚ)]))
  else
    Except.error PyErr.valueError

/-- Claim C9: CTCG2PModel._infer always restores the training flag it saved
on entry, via the finally clause, whether the inference loop returns
predictions or an exception escapes it. -/
theorem c9_infer_restores_training_mode (st : ModelState)
    (batches : List (Option (List PyStr))) :
    ((_infer st batches).2).training = st.training := rfl

/-- Claim C10: adversarial_loss raises ValueError exactly when labels is
neither 0 nor 1; for labels 1 it scores pred against an all-ones column of
height pred.size(0), and for labels 0 against an all-zeros column. -/
theorem c10_adversarial_loss_labels
    (bce : List (List ℚ) → List (List ℚ) → ℚ) (pred : List (List ℚ))
    (labels : Int) :
    ((adversarial_loss bce pred labels = Except.error PyErr.valueError) ↔
      (labels ≠ 0 ∧ labels ≠ 1)) ∧
    adversarial_loss bce pred 1 =
      Except.ok (bce pred (List.replicate pred.length [(1 : ℚ)])) ∧
    adversarial_loss bce pred 0 =
      Except.ok (bce pred (List.replicate pred.length [(0 : ℚ)])) := by
  refine ⟨?_, by simp [adversarial_loss], by simp [adversarial_loss]⟩
  unfold adversarial_loss
  by_cases h1 : labels = 1
  · simp [h1]
  · by_cases h0 : labels = 0
    · simp [h0]
    · simp [h1, h0]

/-- A run with two rows where the first normalizes and the second raises a
normalization exception: the local norm_text still holds the first value. -/
def envStale : NormEnv :=
  { homograph := pystr "read"
    correct_wikihomograph_data := fun s a b => (s, a, b)
    normalize := fun s => if s = pystr "I [] xx" then none else some s }

/-- The two rows of the stale-variable run. -/
def rowsStale : List Row :=
  [ { sent := pystr "I read it", start := 2, end_ := 6, word_id := pystr "w1" },
    { sent := pystr "I read xx", start := 2, end_ := 6, word_id := pystr "w2" } ]

set_option maxRecDepth 8000 in
/-- Claim C1 fails on the code: when row two raises a normalization
exception, the except clause logs and increments num_removed but does not
skip the row, so an entry for the failed row is still written, carrying the
stale normalized text of row one. -/
theorem c1_tn_error_entry_still_written :
    (normalize_wikihomograph_data envStale rowsStale).1.num_removed = 1 ∧
    (normalize_wikihomograph_data envStale rowsStale).1.events =
      [Ev.tnError (pystr "I [] xx")] ∧
    (normalize_wikihomograph_data envStale rowsStale).1.out.length = 2 ∧
    (normalize_wikihomograph_data envStale rowsStale).1.out.getLast? =
      some { text_graphemes := pystr "I [] it"
             norm_text_graphemes := pystr "I read it"
             start_end := (2, 6)
             homograph_span := pystr "read"
             word_id := pystr "w2" } := by decide

/-- Claim C2 fails on the code: in the stale-variable run both rows produce
output lines while num_removed ends at 1, so the counter does not equal the
difference between input and output line counts. -/
theorem c2_num_removed_not_line_difference :
    (normalize_wikihomograph_data envStale rowsStale).1.num_removed ≠
      rowsStale.length -
        (normalize_wikihomograph_data envStale rowsStale).1.out.length := by
  decide

/-- A run with a single row whose span does not match the homograph and
cannot be relocated. -/
def envMismatch : NormEnv :=
  { homograph := pystr "read"
    correct_wikihomograph_data := fun s a b => (s, a, b)
    normalize := fun s => some s }

/-- The single mismatched row. -/
def rowsMismatch : List Row :=
  [ { sent := pystr "xyz", start := 0, end_ := 3, word_id := pystr "w1" } ]

/-- Claim C5 fails on the code: on a mismatched span the code drops the line
and increments num_removed, but instead of logging it breaks into the
interactive debugger (pdb.set_trace) and emits no log message. -/
theorem c5_mismatch_pdb_break_no_log :
    (normalize_wikihomograph_data envMismatch rowsMismatch).1.events =
      [Ev.pdbBreak] ∧
    (normalize_wikihomograph_data envMismatch rowsMismatch).1.out = [] ∧
    (normalize_wikihomograph_data envMismatch rowsMismatch).1.num_removed = 1 ∧
    (normalize_wikihomograph_data envMismatch rowsMismatch).2 = none := by
  decide

/-- A run whose first row raises a normalization exception while norm_text
is still unbound. -/
def envFailFirst : NormEnv :=
  { homograph := pystr "read"
    correct_wikihomograph_data := fun s a b => (s, a, b)
    normalize := fun _ => none }

/-- The single row of the first-row-failure run. -/
def rowsFailFirst : List Row :=
  [ { sent := pystr "I read it", start := 2, end_ := 6, word_id := pystr "w1" } ]

/-- A preparation environment whose validity check rejects every line. -/
def envPrepReject : PrepEnv :=
  { wordid_to_nemo_cmu := fun _ => []
    ipa_tok := fun g => (g, g)
    is_valid := fun _ => false
    post_process := fun g => g }

/-- A normalized manifest line fed to the rejecting preparation run. -/
def entryReject : Entry :=
  { text_graphemes := pystr "a"
    norm_text_graphemes := pystr "a"
    start_end := (0, 0)
    homograph_span := pystr "a"
    word_id := pystr "w" }

/-- Claim C6 fails on the code: a normalization exception on the first row
leaves norm_text unbound and the fall-through raises NameError, and a
validity-check failure on the first manifest line reads the unbound final
grapheme variable and raises NameError, so in both loops a per-row failure
aborts the whole batch. -/
theorem c6_row_failure_raises_nameerror :
    (normalize_wikihomograph_data envFailFirst rowsFailFirst).2 =
      some PyErr.nameError ∧
    (_prepare_wikihomograph_data envPrepReject [entryReject]).2 =
      some PyErr.nameError := by
  decide

set_option maxRecDepth 8000 in
/-- Every entry that writeEntry appends satisfies the round-trip relation
between its fields and records the span it was given. -/
theorem writeEntry_out_mem (st : NormState) (v span : PyStr) (a b : Nat)
    (wid : PyStr) (e : Entry) (he : e ∈ (writeEntry st v span a b wid).out) :
    e ∈ st.out ∨
      (e.norm_text_graphemes =
          pyReplace e.text_graphemes replace_token e.homograph_span ∧
        e.homograph_span = span) := by
  simp only [writeEntry, List.mem_append, List.mem_singleton] at he
  rcases he with h | h
  · exact Or.inl h
  · subst h
    right
    dsimp only
    exact ⟨rfl, rfl⟩

/-- Every entry in the output after the post-span half of a row step either
was already there or satisfies the round-trip relation and has a span whose
lower-casing is the target homograph. -/
theorem afterSpan_out_mem (env : NormEnv) (st : NormState) (r : Row)
    (sent : PyStr) (a b : Nat) (span : PyStr) (e : Entry)
    (he : e ∈ (afterSpan env st r sent a b span).1.out) :
    e ∈ st.out ∨
      (e.norm_text_graphemes =
          pyReplace e.text_graphemes replace_token e.homograph_span ∧
        pyLower e.homograph_span = env.homograph) := by
  unfold afterSpan at he
  split at he
  · exact Or.inl he
  · rename_i hspan
    have hspan2 : pyLower span = env.homograph := not_not.mp hspan
    split at he <;> try split at he
    all_goals
      first
        | exact Or.inl he
        | exact (writeEntry_out_mem _ _ _ _ _ _ _ he).imp id
            (fun h => ⟨h.1, by rw [h.2]; exact hspan2⟩)

/-- Every entry in the output after one row step either was already there or
satisfies the round-trip relation and has a span whose lower-casing is the
target homograph. -/
theorem rowStep_out_mem (env : NormEnv) (st : NormState) (r : Row) (e : Entry)
    (he : e ∈ (rowStep env st r).1.out) :
    e ∈ st.out ∨
      (e.norm_text_graphemes =
          pyReplace e.text_graphemes replace_token e.homograph_span ∧
        pyLower e.homograph_span = env.homograph) := by
  unfold rowStep at he
  split at he
  · exact Or.inl he
  · exact afterSpan_out_mem _ _ _ _ _ _ _ _ he

/-- Every entry in the output of a run over a list of rows either was
already in the starting state or satisfies the round-trip relation and has
a span whose lower-casing is the target homograph. -/
theorem runRows_out_mem (env : NormEnv) :
    ∀ (rows : List Row) (st : NormState) (e : Entry),
      e ∈ (runRows env st rows).1.out →
      e ∈ st.out ∨
        (e.norm_text_graphemes =
            pyReplace e.text_graphemes replace_token e.homograph_span ∧
          pyLower e.homograph_span = env.homograph) := by
  intro rows
  induction rows with
  | nil =>
    intro st e he
    exact Or.inl he
  | cons r rs ih =>
    intro st e he
    rw [runRows] at he
    rcases h2 : (rowStep env st r).2 with _ | err
    · rw [h2] at he
      rcases ih (rowStep env st r).1 e he with h | h
      · exact rowStep_out_mem env st r e h
      · exact Or.inr h
    · rw [h2] at he
      exact rowStep_out_mem env st r e he

/-- Claim C3: for every entry written by normalize_wikihomograph_data,
replacing the placeholder token in text_graphemes with homograph_span
yields exactly norm_text_graphemes. -/
theorem c3_roundtrip_norm_text_graphemes (env : NormEnv) (rows : List Row)
    (e : Entry) (he : e ∈ (normalize_wikihomograph_data env rows).1.out) :
    e.norm_text_graphemes =
      pyReplace e.text_graphemes replace_token e.homograph_span := by
  rcases runRows_out_mem env rows initNormState e he with h | h
  · simp [initNormState] at h
  · exact h.1

/-- Claim C4: for every entry written by normalize_wikihomograph_data, the
homograph_span field lower-cased equals the target homograph string. -/
theorem c4_homograph_span_lowercase (env : NormEnv) (rows : List Row)
    (e : Entry) (he : e ∈ (normalize_wikihomograph_data env rows).1.out) :
    pyLower e.homograph_span = env.homograph := by
  rcases runRows_out_mem env rows initNormState e he with h | h
  · simp [initNormState] at h
  · exact h.2

/-- A run with one well-aligned row and an identity normalizer, used to
instantiate the universally quantified theorems at a concrete input. -/
def envOk : NormEnv :=
  { homograph := pystr "read"
    correct_wikihomograph_data := fun s a b => (s, a, b)
    normalize := fun s => some s }

/-- The single row of the concrete well-aligned run. -/
def rowsOk : List Row :=
  [ { sent := pystr "I read it", start := 2, end_ := 6, word_id := pystr "w1" } ]

/-- The entry the concrete well-aligned run writes. -/
def entryOk : Entry :=
  { text_graphemes := pystr "I [] it"
    norm_text_graphemes := pystr "I read it"
    start_end := (2, 6)
    homograph_span := pystr "read"
    word_id := pystr "w1" }

set_option maxRecDepth 8000 in
/-- Witness for claim C3 at the concrete well-aligned run. -/
theorem c3_roundtrip_witness :
    entryOk.norm_text_graphemes =
      pyReplace entryOk.text_graphemes replace_token entryOk.homograph_span :=
  c3_roundtrip_norm_text_graphemes envOk rowsOk entryOk (by decide)

set_option maxRecDepth 8000 in
/-- Witness for claim C4 at the concrete well-aligned run. -/
theorem c4_homograph_span_witness :
    pyLower entryOk.homograph_span = envOk.homograph :=
  c4_homograph_span_lowercase envOk rowsOk entryOk (by decide)

set_option maxRecDepth 8000 in
/-- Every line in the output after one preparation step either was already
there or stands in the producedFrom relation to the processed source
line. -/
theorem prepStep_out_mem (env : PrepEnv) (st : PrepState) (line : Entry)
    (l : OutLine) (hl : l ∈ (prepStep env st line).1.out) :
    l ∈ st.out ∨ producedFrom env line l := by
  unfold prepStep at hl
  split at hl
  · simp only [List.mem_append, List.mem_singleton] at hl
    rcases hl with h | h
    · exact Or.inl h
    · subst h
      right
      unfold producedFrom
      dsimp only
      exact ⟨rfl, rfl, rfl, rfl, rfl, rfl, rfl, rfl⟩
  · split at hl
    · exact Or.inl hl
    · exact Or.inl hl

/-- Every line in the output of a preparation run over a list of source
lines either was already in the starting state or is producedFrom some
source line of the list. -/
theorem runPrep_out_mem (env : PrepEnv) :
    ∀ (lines : List Entry) (st : PrepState) (l : OutLine),
      l ∈ (runPrep env st lines).1.out →
      l ∈ st.out ∨ ∃ src ∈ lines, producedFrom env src l := by
  intro lines
  induction lines with
  | nil =>
    intro st l hl
    exact Or.inl hl
  | cons x xs ih =>
    intro st l hl
    rw [runPrep] at hl
    rcases h2 : (prepStep env st x).2 with _ | err
    · rw [h2] at hl
      rcases ih (prepStep env st x).1 l hl with h | h
      · rcases prepStep_out_mem env st x l h with h3 | h3
        · exact Or.inl h3
        · exact Or.inr ⟨x, List.mem_cons_self x xs, h3⟩
      · rcases h with ⟨src, hsrc, hp⟩
        exact Or.inr ⟨src, List.mem_cons_of_mem x hsrc, hp⟩
    · rw [h2] at hl
      rcases prepStep_out_mem env st x l hl with h3 | h3
      · exact Or.inl h3
      · exact Or.inr ⟨x, List.mem_cons_self x xs, h3⟩

/-- Claim C7: every manifest line written by _prepare_wikihomograph_data
comes from some input line and carries the replaced grapheme text, the
replaced phoneme text, the homograph span, word id and start_end of that
line, duration 0.001, and audio_filepath n/a. -/
theorem c7_prepared_manifest_fields (env : PrepEnv) (lines : List Entry)
    (l : OutLine) (hl : l ∈ (_prepare_wikihomograph_data env lines).1.out) :
    ∃ src ∈ lines, producedFrom env src l := by
  rcases runPrep_out_mem env lines initPrepState l hl with h | h
  · simp [initPrepState] at h
  · exact h

/-- A concrete preparation environment with identity tokenizer and
post-processing and an accepting validity check. -/
def envPrepOk : PrepEnv :=
  { wordid_to_nemo_cmu := fun _ => pystr "IPA"
    ipa_tok := fun g => (g, g)
    is_valid := fun _ => true
    post_process := fun g => g }

/-- The source lines of the concrete preparation run. -/
def linesPrepOk : List Entry := [entryOk]

/-- The manifest line the concrete preparation run writes. -/
def outLineOk : OutLine :=
  { text_graphemes := pystr "I read it"
    norm_text_graphemes := pystr "I read it"
    start_end := (2, 6)
    homograph_span := pystr "read"
    word_id := pystr "w1"
    text := pystr "I IPA it"
    duration := 1 / 1000
    audio_filepath := pystr "n/a" }

set_option maxRecDepth 8000 in
/-- Witness for claim C7 at the concrete preparation run. -/
theorem c7_prepared_manifest_witness :
    ∃ src ∈ linesPrepOk, producedFrom envPrepOk src outLineOk :=
  c7_prepared_manifest_fields envPrepOk linesPrepOk outLineOk
    (by
      rw [show (_prepare_wikihomograph_data envPrepOk linesPrepOk).1.out =
        [outLineOk] from rfl]
      exact List.mem_singleton.mpr rfl)

/-- When target_field is None, the indexed writing loop extends each line
with pred_text and collects no targets. -/
theorem convRun_none_target (env : ConvEnv) :
    ∀ (lines : List JObj) (i : Nat) (st : ConvState),
      i + lines.length ≤ env.preds.length →
      convRun env none i st lines =
        ({ out := st.out ++
             List.zipWith (fun l p => jSet l predTextKey (JVal.str p))
               lines (env.preds.drop i)
           all_targets := st.all_targets }, none) := by
  intro lines
  induction lines with
  | nil =>
    intro i st h
    simp [convRun]
  | cons l ls ih =>
    intro i st h
    have hi : i < env.preds.length := by
      simp only [List.length_cons] at h
      omega
    have hrec := ih (i + 1)
      { out := st.out ++ [jSet l predTextKey (JVal.str (env.preds.get ⟨i, hi⟩))]
        all_targets := st.all_targets ++ [] }
      (by simp only [List.length_cons] at h; omega)
    rw [convRun, List.get?_eq_get hi]
    dsimp only [convLine]
    rw [hrec]
    dsimp only
    rw [List.drop_eq_getElem_cons hi, List.zipWith_cons_cons,
      List.append_assoc, List.append_nil, List.singleton_append]
    rfl

/-- Claim C8, amended: with target_field equal to None, the run finishes
without error, the output has exactly one line per input line in order,
each the input line extended with pred_text holding its prediction, and
the returned list is the prediction list. -/
theorem c8_convert_output_lines (env : ConvEnv) (lines : List JObj)
    (h : lines.length ≤ env.preds.length) :
    (convert_graphemes_to_phonemes env none lines).1.2 = none ∧
    (convert_graphemes_to_phonemes env none lines).1.1.out =
      List.zipWith (fun l p => jSet l predTextKey (JVal.str p))
        lines env.preds ∧
    (convert_graphemes_to_phonemes env none lines).2 = env.preds := by
  have hrun := convRun_none_target env lines 0 initConvState (by omega)
  unfold convert_graphemes_to_phonemes
  rw [hrun]
  simp [initConvState]

/-- A concrete conversion environment with one prediction. -/
def envConv : ConvEnv :=
  { preds := [pystr "p"]
    word_error_rate := fun _ _ => 0 }

/-- A one-line manifest whose line has a text field. -/
def linesConv : List JObj :=
  [[(textKey, JVal.str (pystr "g"))]]

/-- Witness for the amended claim C8 at the concrete conversion run. -/
theorem c8_convert_output_witness :
    (convert_graphemes_to_phonemes envConv none linesConv).1.2 = none ∧
    (convert_graphemes_to_phonemes envConv none linesConv).1.1.out =
      List.zipWith (fun l p => jSet l predTextKey (JVal.str p))
        linesConv envConv.preds ∧
    (convert_graphemes_to_phonemes envConv none linesConv).2 =
      envConv.preds :=
  c8_convert_output_lines envConv linesConv (by decide)

/-- A manifest line holding both the target field t and a text field. -/
def lineTarget : JObj :=
  [(pystr "t", JVal.str (pystr "x")), (textKey, JVal.str (pystr "g"))]

/-- Claim C8 as stated is false on the code: when target_field is given and
present in a line, the written line is not the input line extended with
pred_text only; it also gains graphemes and PER fields and its text field
is overwritten with the target value. -/
theorem c8_target_field_counterexample :
    (convert_graphemes_to_phonemes envConv (some (pystr "t"))
        [lineTarget]).1.1.out ≠
      [jSet lineTarget predTextKey (JVal.str (pystr "p"))] ∧
    (convert_graphemes_to_phonemes envConv (some (pystr "t"))
        [lineTarget]).1.1.out =
      [[(pystr "t", JVal.str (pystr "x")),
        (textKey, JVal.str (pystr "x")),
        (graphemesKey, JVal.str (pystr "g")),
        (perKey, JVal.num 0),
        (predTextKey, JVal.str (pystr "p"))]] := by
  decide
